import Mathlib

/-!
Shallow embedding of the FurSight Python SDK (package `fursight`): the
exception hierarchy (`exceptions.py`), the resilient request executor
(`client.py`, `FurSightClient._make_request` and `_wait_for_rate_limit`),
the profile models and record merge (`models.py`, `client.py
predict_single`), and the form builder (`forms.py`, `AdoptionForm`).

Python dicts are embedded as insertion-ordered association lists with
unique keys; scalar JSON values as the inductive `Val`; raised exceptions
as values of `Exc` carrying the concrete class, the message and the
attributes the constructors of `exceptions.py` set.  The network is an
oracle: a list of per-attempt outcomes (`Attempt`) consumed one per loop
iteration of `_make_request`, and the executor's observable side effects
(marker writes, dispatches, sleeps) are recorded as a trace of `Event`s.
-/

namespace FurSight

/-- A Python scalar value as it appears in form dicts: a string, a number,
or `None`. -/
inductive Val where
  | vStr (s : String)
  | vNum (n : Int)
  | vNone
  deriving DecidableEq, Repr

/-- Python `str(value)` on the scalars of `Val` (`str(None)` is `"None"`). -/
def pyStr : Val → String
  | Val.vStr s => s
  | Val.vNum n => toString n
  | Val.vNone => "None"

/-- A Python dict of scalars: insertion-ordered association list.  All dicts
built by the SDK have unique keys; theorems assume `(keys d).Nodup` where it
matters. -/
abbrev Dict := List (String × Val)

/-- Python `d.get(key)` / `d[key]`: the first binding of `key`. -/
def lookup : Dict → String → Option Val
  | [], _ => none
  | (k, v) :: rest, key => if k = key then some v else lookup rest key

/-- Python `d.keys()`, in insertion order. -/
def keys (d : Dict) : List String := d.map Prod.fst

/-- Python `d[key] = v`: replace the first binding in place, else append. -/
def insertEntry : Dict → String → Val → Dict
  | [], key, v => [(key, v)]
  | (k, w) :: rest, key, v =>
      if k = key then (k, v) :: rest else (k, w) :: insertEntry rest key v

/-- Python `{**a, **b}` (also `dict(a); .update(b)`): the entries of `b`
written over `a` one by one, later entries winning. -/
def mergeDicts (a b : Dict) : Dict :=
  b.foldl (fun acc kv => insertEntry acc kv.1 kv.2) a

/-- The concrete exception classes of `exceptions.py`, plus Python's builtin
`AttributeError` (raised when a removed client method is looked up). -/
inductive ExcClass where
  | furSightError
  | validationError
  | apiError
  | rateLimitError
  | authenticationError
  | insufficientCreditsError
  | attributeError
  deriving DecidableEq, Repr

/-- The inheritance chains of `exceptions.py`: `FurSightError(Exception)`;
`ValidationError(FurSightError)`; `APIError(FurSightError)`;
`RateLimitError(APIError)`; `AuthenticationError(APIError)`;
`InsufficientCreditsError(APIError)`.  `AttributeError` is a builtin outside
the SDK hierarchy.  Each class is listed with itself and its ancestors. -/
def ancestors : ExcClass → List ExcClass
  | ExcClass.furSightError => [ExcClass.furSightError]
  | ExcClass.validationError => [ExcClass.validationError, ExcClass.furSightError]
  | ExcClass.apiError => [ExcClass.apiError, ExcClass.furSightError]
  | ExcClass.rateLimitError =>
      [ExcClass.rateLimitError, ExcClass.apiError, ExcClass.furSightError]
  | ExcClass.authenticationError =>
      [ExcClass.authenticationError, ExcClass.apiError, ExcClass.furSightError]
  | ExcClass.insufficientCreditsError =>
      [ExcClass.insufficientCreditsError, ExcClass.apiError, ExcClass.furSightError]
  | ExcClass.attributeError => [ExcClass.attributeError]

/-- `isSubclassB c d`: a raised exception of concrete class `c` is caught by
an `except d` handler (Python `issubclass(c, d)`). -/
def isSubclassB (c d : ExcClass) : Bool :=
  (ancestors c).contains d

/-- A raised exception: concrete class, message, and the attributes set by
the constructors in `exceptions.py` (`APIError.status_code`,
`RateLimitError.retry_after`). -/
structure Exc where
  cls : ExcClass
  message : String
  status_code : Option Nat
  retry_after : Option Nat
  deriving DecidableEq, Repr

/-- `FurSightError(message)`. -/
def mkFurSightError (message : String) : Exc :=
  Exc.mk ExcClass.furSightError message none none

/-- `ValidationError(message)`. -/
def mkValidationError (message : String) : Exc :=
  Exc.mk ExcClass.validationError message none none

/-- `APIError(message, status_code=None)`. -/
def mkAPIError (message : String) (statusCode : Option Nat) : Exc :=
  Exc.mk ExcClass.apiError message statusCode none

/-- `RateLimitError(message, retry_after=None)`: sets `status_code=429`. -/
def mkRateLimitError (message : String) (retryAfterArg : Option Nat) : Exc :=
  Exc.mk ExcClass.rateLimitError message (some 429) retryAfterArg

/-- `AuthenticationError(message="Invalid API key")`: sets `status_code=401`.
Defined in `exceptions.py`; `client.py` never raises it. -/
def mkAuthenticationError (message : String) : Exc :=
  Exc.mk ExcClass.authenticationError message (some 401) none

/-- `InsufficientCreditsError(message="Insufficient credits")`: sets
`status_code=402`.  Defined in `exceptions.py`; `client.py` never raises it. -/
def mkInsufficientCreditsError (message : String) : Exc :=
  Exc.mk ExcClass.insufficientCreditsError message (some 402) none

/-- `AttributeError` from looking up a method that `FurSightClient` does not
define (the removed endpoints). -/
def mkAttributeError (methodName : String) : Exc :=
  Exc.mk ExcClass.attributeError
    ("FurSightClient object has no attribute " ++ methodName) none none

/-- One HTTP response as `_make_request` inspects it: the status code, the
`Retry-After` header (`none` when absent, else its integer value), the
result of `response.json()` (`none` when parsing raises, else the optional
`detail` field), and `response.text`. -/
structure HttpResponse where
  status_code : Nat
  retry_after : Option Nat
  json_detail : Option (Option String)
  text : String
  deriving DecidableEq, Repr

/-- `requests.Response.ok`: true exactly when `status_code < 400`. -/
def responseOk (r : HttpResponse) : Bool :=
  r.status_code < 400

/-- The `error_message` computed in `_make_request`'s non-ok branch:
`error_data.get('detail', f'HTTP {status}')` when `response.json()` parses,
else `f'HTTP {status}: {text}'`. -/
def errorMessageOf (r : HttpResponse) : String :=
  match r.json_detail with
  | some (some detail) => detail
  | some none => "HTTP " ++ toString r.status_code
  | none => "HTTP " ++ toString r.status_code ++ ": " ++ r.text

/-- The raise in `_make_request`'s non-ok branch (client.py lines 117-124):
400 raises `ValidationError(error_message)`, 401 `APIError("Invalid API
key")`, 402 `APIError("Insufficient credits")`, anything else
`APIError(error_message)`. -/
def classifyHTTPError (r : HttpResponse) : Exc :=
  if r.status_code = 400 then mkValidationError (errorMessageOf r)
  else if r.status_code = 401 then mkAPIError "Invalid API key" none
  else if r.status_code = 402 then mkAPIError "Insufficient credits" none
  else mkAPIError (errorMessageOf r) none

/-- One attempt's outcome as seen by the `try` in `_make_request`: a
response, a `requests.exceptions.Timeout`, or another
`requests.exceptions.RequestException` with its message. -/
inductive Attempt where
  | response (r : HttpResponse)
  | timeout
  | reqExc (message : String)
  deriving DecidableEq, Repr

/-- An observable side effect of the executor: a write to
`self.last_request_time` (in `_wait_for_rate_limit`), one
`session.request(...)` dispatched to the network, or a `time.sleep` of the
given whole seconds.  The conditional sub-interval pacing sleep in
`_wait_for_rate_limit` depends on wall-clock time and is not recorded. -/
inductive Event where
  | markerUpdate
  | dispatch
  | sleep (seconds : Nat)
  deriving DecidableEq, Repr

/-- The `for attempt in range(self.max_retries)` loop of `_make_request`
(client.py lines 87-140), consuming one oracle element per dispatched
attempt.  Falling off the loop (attempt budget exhausted, and likewise an
exhausted oracle) raises `FurSightError("Max retries exceeded")`; theorems
always supply an oracle at least as long as the budget they exercise. -/
def requestLoop (maxRetries timeoutS : Nat) :
    Nat → List Attempt → List Event × Except Exc HttpResponse
  | _, [] => ([], Except.error (mkFurSightError "Max retries exceeded"))
  | attempt, a :: rest =>
    if maxRetries ≤ attempt then
      ([], Except.error (mkFurSightError "Max retries exceeded"))
    else
      match a with
      | Attempt.response r =>
        if r.status_code = 429 then
          let retryAfter := r.retry_after.getD 60
          if attempt = maxRetries - 1 then
            ([Event.dispatch],
             Except.error (mkRateLimitError
               ("Rate limit exceeded. Retry after " ++ toString retryAfter
                 ++ " seconds.") none))
          else
            let next := requestLoop maxRetries timeoutS (attempt + 1) rest
            (Event.dispatch :: Event.sleep retryAfter :: next.1, next.2)
        else if responseOk r then
          ([Event.dispatch], Except.ok r)
        else
          ([Event.dispatch], Except.error (classifyHTTPError r))
      | Attempt.timeout =>
        if attempt = maxRetries - 1 then
          ([Event.dispatch],
           Except.error (mkFurSightError
             ("Request timeout after " ++ toString timeoutS ++ " seconds")))
        else
          let next := requestLoop maxRetries timeoutS (attempt + 1) rest
          (Event.dispatch :: Event.sleep (2 ^ attempt) :: next.1, next.2)
      | Attempt.reqExc message =>
        if attempt = maxRetries - 1 then
          ([Event.dispatch],
           Except.error (mkFurSightError ("Request failed: " ++ message)))
        else
          let next := requestLoop maxRetries timeoutS (attempt + 1) rest
          (Event.dispatch :: Event.sleep (2 ^ attempt) :: next.1, next.2)

/-- `FurSightClient._make_request` (client.py lines 61-140): one call to
`_wait_for_rate_limit` — which writes `self.last_request_time` exactly once
— followed by the retry loop. -/
def makeRequest (maxRetries timeoutS : Nat) (oracle : List Attempt) :
    List Event × Except Exc HttpResponse :=
  let run := requestLoop maxRetries timeoutS 0 oracle
  (Event.markerUpdate :: run.1, run.2)

/-- The declared fields of `AdopterProfile` (models.py lines 25-94), in
declaration order; each is `Optional` with default `None`. -/
def adopterFieldNames : List String :=
  ["adopter_housing_type", "adopter_home_ownership_status",
   "adopter_landlord_permission", "adopter_yard_type", "adopter_fence_type",
   "adopter_fence_height_ft", "adopter_household_members", "adopter_has_kids",
   "adopter_num_kids", "adopter_kids_ages", "adopter_kids_dog_experience",
   "adopter_household_allergies", "adopter_allergy_severity",
   "adopter_hypoallergenic_preference", "adopter_hours_dog_left_alone",
   "adopter_daytime_presence", "adopter_move_plan_within_6mo",
   "adopter_monthly_dog_budget_usd", "adopter_can_afford_vet_grooming",
   "adopter_preferred_breed", "adopter_preferred_breed_status",
   "adopter_preferred_age", "adopter_preferred_size",
   "adopter_preferred_energy_level", "adopter_desired_temperament",
   "adopter_preferred_sex", "adopter_preferred_housetraining_status",
   "adopter_okay_with_medical_needs", "adopter_okay_with_behavior_issues",
   "adopter_reason_for_adoption", "adopter_exercise_routine",
   "adopter_exercise_frequency_per_week", "adopter_discipline_method",
   "adopter_training_plan", "adopter_leash_behavior",
   "adopter_dog_sleeping_area", "adopter_previous_dog_experience",
   "adopter_pitbull_experience", "adopter_owned_dogs_last_5yrs",
   "adopter_previous_pet_outcome", "adopter_has_other_pets",
   "adopter_other_pets_info", "adopter_pets_adjustment_expectation",
   "adopter_experience_with_issues", "adopter_surrender_risks",
   "adopter_long_term_commitment", "adopter_pet_loss_plan",
   "adopter_preparation_confidence", "adopter_adopter_breed_restrictions",
   "adopter_rewritten_adopter_letter"]

/-- The declared fields of `DogProfile` (models.py lines 109-200), in
declaration order; each is `Optional` with default `None`. -/
def dogFieldNames : List String :=
  ["dog_breed", "dog_primaryBreed", "dog_secondaryBreed", "dog_sex",
   "dog_mixed", "dog_age", "dog_birthdate", "dog_altered", "dog_dogs",
   "dog_cats", "dog_kids", "dog_oKWithAdults", "dog_oKForSeniors",
   "dog_oKWithFarmAnimals", "dog_size", "dog_sizeCurrent",
   "dog_sizePotential", "dog_sizeUOM", "dog_color", "dog_coatLength",
   "dog_pattern", "dog_earType", "dog_eyeColor", "dog_tailType",
   "dog_housetrained", "dog_obedienceTraining", "dog_leashtrained",
   "dog_cratetrained", "dog_ownerExperience", "dog_exerciseNeeds",
   "dog_energyLevel", "dog_activityLevel", "dog_yardRequired", "dog_fence",
   "dog_groomingNeeds", "dog_shedding", "dog_hypoallergenic",
   "dog_specialNeeds", "dog_uptodate", "dog_declawed", "dog_hasAllergies",
   "dog_specialDiet", "dog_ongoingMedical", "dog_hearingImpaired",
   "dog_sightImpaired", "dog_obedient", "dog_playful", "dog_timid",
   "dog_skittish", "dog_independent", "dog_affectionate",
   "dog_eagerToPlease", "dog_intelligent", "dog_eventempered", "dog_gentle",
   "dog_goofy", "dog_newPeople", "dog_vocal", "dog_goodInCar", "dog_fetches",
   "dog_playsToys", "dog_swims", "dog_lap", "dog_drools", "dog_protective",
   "dog_escapes", "dog_predatory", "dog_apartment", "dog_noHeat",
   "dog_noCold", "dog_combined_breeds", "dog_enriched_profile"]

/-- A pydantic `AdopterProfile` instance: every declared field holds a value,
`Val.vNone` when unset (every field is `Optional[...] = Field(None, ...)`). -/
structure AdopterProfile where
  get : String → Val

/-- A pydantic `DogProfile` instance, same convention. -/
structure DogProfile where
  get : String → Val

/-- `AdopterProfile.model_dump()`: a dict with one entry per declared field,
unset fields dumped as `None` (pydantic `model_dump` is called with no
`exclude_none`/`exclude_unset` argument in client.py line 165). -/
def AdopterProfile.model_dump (p : AdopterProfile) : Dict :=
  adopterFieldNames.map (fun f => (f, p.get f))

/-- `DogProfile.model_dump()` (client.py line 167), same convention. -/
def DogProfile.model_dump (p : DogProfile) : Dict :=
  dogFieldNames.map (fun f => (f, p.get f))

/-- An `AdopterProfile()` with no field set: all fields `None`. -/
def emptyAdopterProfile : AdopterProfile :=
  AdopterProfile.mk (fun _ => Val.vNone)

/-- A `DogProfile()` with no field set: all fields `None`. -/
def emptyDogProfile : DogProfile :=
  DogProfile.mk (fun _ => Val.vNone)

/-- The `adopter_data` argument of `predict_single`: a dict or a model. -/
inductive AdopterArg where
  | dict (d : Dict)
  | model (p : AdopterProfile)

/-- The `dog_data` argument of `predict_single`: a dict or a model. -/
inductive DogArg where
  | dict (d : Dict)
  | model (p : DogProfile)

/-- client.py lines 164-165: `if isinstance(adopter_data, AdopterProfile):
adopter_data = adopter_data.model_dump()`. -/
def adopterArgToDict : AdopterArg → Dict
  | AdopterArg.dict d => d
  | AdopterArg.model p => p.model_dump

/-- client.py lines 166-167, same for `dog_data`. -/
def dogArgToDict : DogArg → Dict
  | DogArg.dict d => d
  | DogArg.model p => p.model_dump

/-- The `prediction_data` submitted by `predict_single` (client.py line 170):
`{**adopter_data, **dog_data}` after the model-to-dict conversions. -/
def predictSingleRecord (adopter : AdopterArg) (dog : DogArg) : Dict :=
  mergeDicts (adopterArgToDict adopter) (dogArgToDict dog)

/-- How many `last_request_time` writes a trace records. -/
def countMarkerUpdates (evs : List Event) : Nat :=
  (evs.filter (fun e => match e with
    | Event.markerUpdate => true
    | _ => false)).length

/-- How many network dispatches a trace records. -/
def countDispatches (evs : List Event) : Nat :=
  (evs.filter (fun e => match e with
    | Event.dispatch => true
    | _ => false)).length

/-- The sleeps of a trace, in order, in seconds. -/
def sleepsOf (evs : List Event) : List Nat :=
  evs.filterMap (fun e => match e with
    | Event.sleep s => some s
    | _ => none)

/-- The dropdown-values table: field name to list of allowed string values
(`Dict[str, List[str]]`). -/
abbrev DropTable := List (String × List String)

/-- First binding of `field` in a dropdown table (`field_name in
dropdown_values` / `dropdown_values[field_name]`). -/
def lookupTable : DropTable → String → Option (List String)
  | [], _ => none
  | (k, vs) :: rest, key => if k = key then some vs else lookupTable rest key

/-- The mutable state of an `AdoptionForm` (forms.py lines 26-30):
`_adopter_data`, `_dog_data`, and the lazy caches `_dropdown_values` and
`_sample_data` (both initialised to `None`). -/
structure Form where
  adopter : Dict
  dog : Dict
  dropdownValues : Option DropTable
  sampleData : Option Dict

/-- `FurSightClient.get_dropdown_values`: client.py does not define this
method (lines 200-201 record its removal), so the attribute lookup
`self.client.get_dropdown_values` raises `AttributeError` before any
network activity. -/
def clientGetDropdownValues : Except Exc DropTable :=
  Except.error (mkAttributeError "get_dropdown_values")

/-- `AdoptionForm.get_dropdown_values` (forms.py lines 32-41): return the
cache, else fetch from the client and cache the result.  Returns the
table together with the form state after the call. -/
def Form.get_dropdown_values (f : Form) : Except Exc (DropTable × Form) :=
  match f.dropdownValues with
  | some t => Except.ok (t, f)
  | none =>
    match clientGetDropdownValues with
    | Except.error e => Except.error e
    | Except.ok t =>
        Except.ok (t, Form.mk f.adopter f.dog (some t) f.sampleData)

/-- Python's repr of a list of strings, as an f-string interpolates it:
`['a', 'b']`. -/
def pyListRepr (xs : List String) : String :=
  "[" ++ String.intercalate ", " (xs.map (fun s => "'" ++ s ++ "'")) ++ "]"

/-- The `ValidationError` message of `validate_field` (forms.py lines
145-148): names the field, the first five allowed values (with `...` when
more exist) and the received value. -/
def fieldErrorMessage (fieldName : String) (allowed : List String)
    (v : Val) : String :=
  "Field '" ++ fieldName ++ "' must be one of: " ++ pyListRepr (allowed.take 5)
    ++ (if 5 < allowed.length then "..." else "") ++ ". Received: '"
    ++ pyStr v ++ "'"

/-- `AdoptionForm.validate_field` (forms.py lines 126-150): fetch the
dropdown table (possibly raising), and when the field is constrained by a
non-empty list that does not contain `str(value)`, raise a
`ValidationError`; otherwise return `True`.  (`if allowed_values and
str(value) not in allowed_values` — an empty list is falsy and imposes no
constraint.)  Returns the result with the form state after the call. -/
def Form.validate_field (f : Form) (fieldName : String) (v : Val) :
    Except Exc (Bool × Form) :=
  match f.get_dropdown_values with
  | Except.error e => Except.error e
  | Except.ok (dv, f1) =>
    match lookupTable dv fieldName with
    | none => Except.ok (true, f1)
    | some allowed =>
      if !allowed.isEmpty && !allowed.contains (pyStr v) then
        Except.error (mkValidationError (fieldErrorMessage fieldName allowed v))
      else Except.ok (true, f1)

/-- The two `for field_name, value in ...items(): if value is not None:
self.validate_field(field_name, value)` loops of `validate` (forms.py
lines 162-170), threading the form state. -/
def validateEntries (f : Form) : List (String × Val) → Except Exc Form
  | [] => Except.ok f
  | (fieldName, v) :: rest =>
    if v = Val.vNone then validateEntries f rest
    else
      match f.validate_field fieldName v with
      | Except.error e => Except.error e
      | Except.ok (_, f1) => validateEntries f1 rest

/-- The "no data" message of forms.py line 174. -/
def noDataMessage : String :=
  "Form must contain at least some adopter and dog data"

/-- `AdoptionForm.validate` (forms.py lines 152-176): check every non-null
adopter field, then every non-null dog field, then raise the "no data"
`ValidationError` when both partitions are empty, else return `True`.
Returns the form state after the call alongside the outcome, so that
mutation (or its absence) is visible even when an exception propagates. -/
def Form.validate (f : Form) : Form × Except Exc Bool :=
  match validateEntries f f.adopter with
  | Except.error e => (f, Except.error e)
  | Except.ok f1 =>
    match validateEntries f1 f.dog with
    | Except.error e => (f1, Except.error e)
    | Except.ok f2 =>
      if f.adopter.isEmpty && f.dog.isEmpty then
        (f2, Except.error (mkValidationError noDataMessage))
      else (f2, Except.ok true)

/-- `AdoptionForm.to_dict` (forms.py lines 263-270):
`{**self._adopter_data, **self._dog_data}`. -/
def Form.to_dict (f : Form) : Dict :=
  mergeDicts f.adopter f.dog

/-- `FurSightClient.predict_batch`: not defined (client.py lines 183-184
record its removal) — calling it raises `AttributeError` at attribute
lookup, with no events dispatched. -/
def clientPredictBatch : List Event × Except Exc Dict :=
  ([], Except.error (mkAttributeError "predict_batch"))

/-- `FurSightClient.generate_adopter_letter`: not defined (client.py lines
203-204) — `AttributeError`, no events. -/
def clientGenerateAdopterLetter (_payload : Dict) :
    List Event × Except Exc String :=
  ([], Except.error (mkAttributeError "generate_adopter_letter"))

/-- `FurSightClient.generate_dog_profile`: not defined (client.py lines
206-207) — `AttributeError`, no events. -/
def clientGenerateDogProfile (_payload : Dict) :
    List Event × Except Exc String :=
  ([], Except.error (mkAttributeError "generate_dog_profile"))

/-- `AdoptionForm.generate_adopter_letter` (forms.py lines 226-237): merge
the partitions locally, then delegate to the removed client method. -/
def Form.generate_adopter_letter (f : Form) : List Event × Except Exc String :=
  let combined := mergeDicts f.adopter f.dog
  clientGenerateAdopterLetter combined

/-- `AdoptionForm.generate_dog_profile` (forms.py lines 239-250): merge the
partitions locally, then delegate to the removed client method. -/
def Form.generate_dog_profile (f : Form) : List Event × Except Exc String :=
  let combined := mergeDicts f.adopter f.dog
  clientGenerateDogProfile combined

/-- `AdoptionForm.get_dropdown_values` as an event-traced call: the client
fetch in the cache-miss branch raises before any network dispatch. -/
def Form.get_dropdown_values_traced (f : Form) :
    List Event × Except Exc (DropTable × Form) :=
  ([], f.get_dropdown_values)

/-- The declarative notion of one form entry passing its field check
against table `dv`: the value is null (skipped by `validate`), or the
field is unconstrained, or its list is empty, or `str(value)` is listed. -/
def entryPasses (dv : DropTable) (entry : String × Val) : Prop :=
  entry.2 = Val.vNone ∨
    match lookupTable dv entry.1 with
    | none => True
    | some allowed => allowed = [] ∨ allowed.contains (pyStr entry.2) = true

instance (dv : DropTable) (entry : String × Val) :
    Decidable (entryPasses dv entry) := by
  unfold entryPasses
  cases lookupTable dv entry.1 <;> simp <;> infer_instance

/-- All field checks of `validate` pass on form `f`: with a populated
dropdown cache, every entry of both partitions passes against it; with an
empty cache, every entry is null (a non-null entry would hit the removed
client method). -/
def fieldChecksPass (f : Form) : Prop :=
  match f.dropdownValues with
  | some dv => ∀ entry ∈ f.adopter ++ f.dog, entryPasses dv entry
  | none => ∀ entry ∈ f.adopter ++ f.dog, entry.2 = Val.vNone

/-- The attempt outcomes handled by `_make_request`'s two retryable
`except` branches (`requests.exceptions.Timeout`,
`requests.exceptions.RequestException`). -/
def isTransient : Attempt → Bool
  | Attempt.timeout => true
  | Attempt.reqExc _ => true
  | Attempt.response _ => false

/-- Every concrete exception class of the embedding. -/
def allExcClasses : List ExcClass :=
  [ExcClass.furSightError, ExcClass.validationError, ExcClass.apiError,
   ExcClass.rateLimitError, ExcClass.authenticationError,
   ExcClass.insufficientCreditsError, ExcClass.attributeError]

/- ------------------------------------------------------------------ -/
/- Helper lemmas: dict algebra.                                        -/
/- ------------------------------------------------------------------ -/

theorem keys_nil : keys [] = [] := rfl

theorem keys_cons (kv : String × Val) (d : Dict) :
    keys (kv :: d) = kv.1 :: keys d := rfl

theorem mergeDicts_nil (a : Dict) : mergeDicts a [] = a := rfl

theorem mergeDicts_cons (a : Dict) (kv : String × Val) (b : Dict) :
    mergeDicts a (kv :: b) = mergeDicts (insertEntry a kv.1 kv.2) b := rfl

theorem lookup_insertEntry_self (d : Dict) (key : String) (v : Val) :
    lookup (insertEntry d key v) key = some v := by
  induction d with
  | nil => simp [insertEntry, lookup]
  | cons kv rest ih =>
    obtain ⟨k, w⟩ := kv
    by_cases h : k = key <;> simp [insertEntry, lookup, h, ih]

theorem lookup_insertEntry_ne (d : Dict) {key k : String} (v : Val)
    (h : key ≠ k) : lookup (insertEntry d key v) k = lookup d k := by
  induction d with
  | nil => simp [insertEntry, lookup, h]
  | cons kv rest ih =>
    obtain ⟨k1, w⟩ := kv
    by_cases h1 : k1 = key
    · subst h1
      simp [insertEntry, lookup, h]
    · simp [insertEntry, lookup, h1, ih]

theorem mem_keys_insertEntry {k : String} (d : Dict) (key : String) (v : Val) :
    k ∈ keys (insertEntry d key v) ↔ k = key ∨ k ∈ keys d := by
  induction d with
  | nil => simp [insertEntry, keys]
  | cons kv rest ih =>
    obtain ⟨k1, w⟩ := kv
    by_cases h : k1 = key
    · simp [insertEntry, keys_cons, h, ih]
    · simp [insertEntry, keys_cons, h, ih]
      tauto

theorem lookup_eq_none_of_not_mem (d : Dict) (k : String) (h : k ∉ keys d) :
    lookup d k = none := by
  induction d with
  | nil => rfl
  | cons kv rest ih =>
    obtain ⟨k1, w⟩ := kv
    simp [keys_cons] at h
    simp [lookup, ih h.2]
    intro hk
    exact absurd hk.symm h.1

theorem lookup_mergeDicts_not_mem (a b : Dict) (k : String)
    (h : k ∉ keys b) : lookup (mergeDicts a b) k = lookup a k := by
  induction b generalizing a with
  | nil => rfl
  | cons kv rest ih =>
    obtain ⟨k1, v1⟩ := kv
    simp [keys_cons] at h
    rw [mergeDicts_cons, ih _ (by simp [h.2])]
    exact lookup_insertEntry_ne a v1 (fun he => h.1 he.symm)

theorem lookup_mergeDicts_mem (a b : Dict) (k : String)
    (hnd : (keys b).Nodup) (h : k ∈ keys b) :
    lookup (mergeDicts a b) k = lookup b k := by
  induction b generalizing a with
  | nil => simp [keys_nil] at h
  | cons kv rest ih =>
    obtain ⟨k1, v1⟩ := kv
    rw [keys_cons] at hnd h
    rw [List.nodup_cons] at hnd
    rw [mergeDicts_cons]
    rcases List.mem_cons.mp h with h | h
    · subst h
      rw [lookup_mergeDicts_not_mem _ _ _ hnd.1,
          lookup_insertEntry_self]
      simp [lookup]
    · have hne : k1 ≠ k := fun he => hnd.1 (he ▸ h)
      rw [ih _ hnd.2 h]
      simp [lookup, hne]

theorem mem_keys_mergeDicts (a b : Dict) (k : String) :
    k ∈ keys (mergeDicts a b) ↔ k ∈ keys a ∨ k ∈ keys b := by
  induction b generalizing a with
  | nil => simp [mergeDicts_nil, keys_nil]
  | cons kv rest ih =>
    rw [mergeDicts_cons, ih, keys_cons]
    simp [mem_keys_insertEntry]
    tauto

theorem keys_adopter_model_dump (p : AdopterProfile) :
    keys p.model_dump = adopterFieldNames := by
  simp [AdopterProfile.model_dump, keys, List.map_map]
  rfl

theorem keys_dog_model_dump (p : DogProfile) :
    keys p.model_dump = dogFieldNames := by
  simp [DogProfile.model_dump, keys, List.map_map]
  rfl

/- ------------------------------------------------------------------ -/
/- C6.                                                                 -/
/- ------------------------------------------------------------------ -/

/-- C6: for adopter and dog field maps with no key in common, the submitted
merged record (`prediction_data = {**adopter_data, **dog_data}`) is, as a
mapping, the union of the two maps, and merge order does not change it; for
a key present in both maps the merged record holds the dog-partition
value. -/
theorem claim6_merge_union_order_dog_wins (a b : Dict)
    (ha : (keys a).Nodup) (hb : (keys b).Nodup) :
    ((∀ k, ¬(k ∈ keys a ∧ k ∈ keys b)) →
      ∀ k, lookup (predictSingleRecord (AdopterArg.dict a) (DogArg.dict b)) k
              = (lookup a k).orElse (fun _ => lookup b k)
           ∧ lookup (predictSingleRecord (AdopterArg.dict a) (DogArg.dict b)) k
              = lookup (mergeDicts b a) k)
    ∧ (∀ k, k ∈ keys a → k ∈ keys b →
        lookup (predictSingleRecord (AdopterArg.dict a) (DogArg.dict b)) k
          = lookup b k) := by
  have hrec : predictSingleRecord (AdopterArg.dict a) (DogArg.dict b)
      = mergeDicts a b := rfl
  constructor
  · intro hdisj k
    rw [hrec]
    by_cases hkb : k ∈ keys b
    · have hka : k ∉ keys a := fun hka => hdisj k ⟨hka, hkb⟩
      rw [lookup_mergeDicts_mem a b k hb hkb,
          lookup_eq_none_of_not_mem a k hka,
          lookup_mergeDicts_not_mem b a k hka]
      simp [Option.orElse]
    · rw [lookup_mergeDicts_not_mem a b k hkb,
          lookup_eq_none_of_not_mem b k hkb]
      constructor
      · cases hl : lookup a k <;> simp [Option.orElse]
      · by_cases hka : k ∈ keys a
        · rw [lookup_mergeDicts_mem b a k ha hka]
        · rw [lookup_mergeDicts_not_mem b a k hka,
              lookup_eq_none_of_not_mem a k hka,
              lookup_eq_none_of_not_mem b k hkb]
  · intro k hka hkb
    rw [hrec, lookup_mergeDicts_mem a b k hb hkb]

/-- C6 witness: disjoint maps keep the adopter value; on a collision the
dog value wins. -/
theorem claim6_witness :
    lookup (predictSingleRecord (AdopterArg.dict [("adopter_x", Val.vNum 1)])
      (DogArg.dict [("dog_y", Val.vNum 2)])) "adopter_x" = some (Val.vNum 1)
    ∧ lookup (predictSingleRecord (AdopterArg.dict [("k", Val.vNum 1)])
      (DogArg.dict [("k", Val.vNum 2)])) "k" = some (Val.vNum 2) := by
  constructor
  · have h := claim6_merge_union_order_dog_wins
      [("adopter_x", Val.vNum 1)] [("dog_y", Val.vNum 2)]
      (by simp [keys]) (by simp [keys])
    have h1 := (h.1 (by
      intro k hk
      simp [keys] at hk
      exact absurd (hk.1.symm.trans hk.2) (by decide)) "adopter_x").1
    rw [h1]
    rfl
  · have h := claim6_merge_union_order_dog_wins
      [("k", Val.vNum 1)] [("k", Val.vNum 2)]
      (by simp [keys]) (by simp [keys])
    rw [h.2 "k" (by simp [keys]) (by simp [keys])]
    rfl

/- ------------------------------------------------------------------ -/
/- C2.                                                                 -/
/- ------------------------------------------------------------------ -/

/-- C2 counterexample: `predict_single` given an `AdopterProfile()` with no
field set (every field `None`) submits a record in which the unset field
`adopter_housing_type` is present and maps to the null placeholder — pydantic
`model_dump()` without `exclude_none` dumps every declared field. -/
theorem claim2_counterexample :
    "adopter_housing_type" ∈ keys (predictSingleRecord
        (AdopterArg.model emptyAdopterProfile) (DogArg.dict []))
    ∧ lookup (predictSingleRecord (AdopterArg.model emptyAdopterProfile)
        (DogArg.dict [])) "adopter_housing_type" = some Val.vNone := by
  constructor
  · rw [show predictSingleRecord (AdopterArg.model emptyAdopterProfile)
        (DogArg.dict []) = emptyAdopterProfile.model_dump from rfl]
    rw [show keys emptyAdopterProfile.model_dump = adopterFieldNames from
        keys_adopter_model_dump emptyAdopterProfile]
    decide
  · rfl

/-- C2 amended: when both inputs are dicts, a key absent from both dicts is
omitted from the outgoing merged record; but when an input is an
`AdopterProfile`/`DogProfile` model, `model_dump()` emits every declared
field, so unset fields appear in the record (as null placeholders) rather
than being omitted. -/
theorem claim2_amended (da db : Dict) (k : String) (p : AdopterProfile)
    (q : DogProfile) :
    (k ∉ keys da → k ∉ keys db →
      lookup (predictSingleRecord (AdopterArg.dict da) (DogArg.dict db)) k
        = none)
    ∧ (k ∈ adopterFieldNames →
      k ∈ keys (predictSingleRecord (AdopterArg.model p) (DogArg.dict db)))
    ∧ (k ∈ dogFieldNames →
      k ∈ keys (predictSingleRecord (AdopterArg.dict da) (DogArg.model q))) := by
  refine ⟨fun hka hkb => ?_, fun hk => ?_, fun hk => ?_⟩
  · rw [show predictSingleRecord (AdopterArg.dict da) (DogArg.dict db)
        = mergeDicts da db from rfl,
        lookup_mergeDicts_not_mem da db k hkb,
        lookup_eq_none_of_not_mem da k hka]
  · rw [show predictSingleRecord (AdopterArg.model p) (DogArg.dict db)
        = mergeDicts p.model_dump db from rfl]
    exact (mem_keys_mergeDicts _ _ k).mpr
      (Or.inl ((keys_adopter_model_dump p).symm ▸ hk))
  · rw [show predictSingleRecord (AdopterArg.dict da) (DogArg.model q)
        = mergeDicts da q.model_dump from rfl]
    exact (mem_keys_mergeDicts _ _ k).mpr
      (Or.inr ((keys_dog_model_dump q).symm ▸ hk))

/-- C2 witness: a key in neither dict is omitted; a declared dog field is
always a key of the record when the dog input is a model. -/
theorem claim2_witness :
    lookup (predictSingleRecord (AdopterArg.dict []) (DogArg.dict []))
      "absent_key" = none
    ∧ "dog_size" ∈ keys (predictSingleRecord (AdopterArg.dict [])
        (DogArg.model emptyDogProfile)) := by
  constructor
  · exact (claim2_amended [] [] "absent_key" emptyAdopterProfile
      emptyDogProfile).1 (by simp [keys]) (by simp [keys])
  · exact (claim2_amended [] [] "dog_size" emptyAdopterProfile
      emptyDogProfile).2.2 (by decide)

/- ------------------------------------------------------------------ -/
/- C1.                                                                 -/
/- ------------------------------------------------------------------ -/

/-- C1 counterexample: a 401 response makes `_make_request` raise
`APIError("Invalid API key")` — concrete class `APIError`, not the
`AuthenticationError` the claim names (that class is defined in
`exceptions.py` but never raised by `client.py`). -/
theorem claim1_counterexample :
    (makeRequest 3 30
      [Attempt.response (HttpResponse.mk 401 none (some none) "")]).2
      = Except.error (mkAPIError "Invalid API key" none)
    ∧ (mkAPIError "Invalid API key" none).cls ≠ ExcClass.authenticationError
    ∧ mkAPIError "Invalid API key" none
        ≠ mkAuthenticationError "Invalid API key" := by
  exact ⟨rfl, by decide, by decide⟩

/-- C1 amended: a first-attempt response with status ≥ 400 other than 429 is
never retried — the call raises immediately after one dispatch, with no
sleep — and the raised exception is: 400 `ValidationError(error_message)`;
401 `APIError("Invalid API key")`; 402 `APIError("Insufficient credits")`;
any other status ≥ 400 `APIError(error_message)` (statuses below 400 count
as ok under `response.ok` and are returned, not raised). -/
theorem claim1_amended (maxRetries timeoutS : Nat) (r : HttpResponse)
    (rest : List Attempt) (hmr : 1 ≤ maxRetries)
    (hge : 400 ≤ r.status_code) (hne : r.status_code ≠ 429) :
    makeRequest maxRetries timeoutS (Attempt.response r :: rest)
      = ([Event.markerUpdate, Event.dispatch],
         Except.error (classifyHTTPError r))
    ∧ (r.status_code = 400 →
        classifyHTTPError r = mkValidationError (errorMessageOf r))
    ∧ (r.status_code = 401 →
        classifyHTTPError r = mkAPIError "Invalid API key" none)
    ∧ (r.status_code = 402 →
        classifyHTTPError r = mkAPIError "Insufficient credits" none)
    ∧ (r.status_code ≠ 400 → r.status_code ≠ 401 → r.status_code ≠ 402 →
        classifyHTTPError r = mkAPIError (errorMessageOf r) none) := by
  have hok : responseOk r = false := by
    simp [responseOk]
    omega
  have hle : ¬maxRetries ≤ 0 := by omega
  refine ⟨?_, ?_, ?_, ?_, ?_⟩
  · rw [makeRequest, requestLoop.eq_def]
    simp [hle, hne, hok]
  · intro h
    simp [classifyHTTPError, h]
  · intro h
    simp [classifyHTTPError, h]
  · intro h
    simp [classifyHTTPError, h]
  · intro h400 h401 h402
    simp [classifyHTTPError, h400, h401, h402]

/-- C1 witness: at 402 (on default settings) the call raises
`APIError("Insufficient credits")` after exactly one dispatch. -/
theorem claim1_witness :
    makeRequest 3 30
      [Attempt.response (HttpResponse.mk 402 none (some none) "")]
      = ([Event.markerUpdate, Event.dispatch],
         Except.error (mkAPIError "Insufficient credits" none)) := by
  have h := claim1_amended 3 30 (HttpResponse.mk 402 none (some none) "") []
    (by decide) (by decide) (by decide)
  rw [h.1, h.2.2.2.1 rfl]

/- ------------------------------------------------------------------ -/
/- Helper lemmas: event traces and the request loop.                   -/
/- ------------------------------------------------------------------ -/

theorem countMarkerUpdates_nil : countMarkerUpdates [] = 0 := rfl

theorem countMarkerUpdates_cons (e : Event) (evs : List Event) :
    countMarkerUpdates (e :: evs)
      = (match e with
         | Event.markerUpdate => 1
         | _ => 0) + countMarkerUpdates evs := by
  cases e <;> simp [countMarkerUpdates, List.filter, Nat.add_comm]

theorem countDispatches_cons (e : Event) (evs : List Event) :
    countDispatches (e :: evs)
      = (match e with
         | Event.dispatch => 1
         | _ => 0) + countDispatches evs := by
  cases e <;> simp [countDispatches, List.filter, Nat.add_comm]

theorem sleepsOf_cons (e : Event) (evs : List Event) :
    sleepsOf (e :: evs)
      = (match e with
         | Event.sleep s => [s]
         | _ => []) ++ sleepsOf evs := by
  cases e <;> simp [sleepsOf, List.filterMap]

theorem sleepsOf_cons_marker (evs : List Event) :
    sleepsOf (Event.markerUpdate :: evs) = sleepsOf evs := by
  simp [sleepsOf, List.filterMap]

theorem sleepsOf_cons_dispatch (evs : List Event) :
    sleepsOf (Event.dispatch :: evs) = sleepsOf evs := by
  simp [sleepsOf, List.filterMap]

theorem sleepsOf_cons_sleep (s : Nat) (evs : List Event) :
    sleepsOf (Event.sleep s :: evs) = s :: sleepsOf evs := by
  simp [sleepsOf, List.filterMap]

theorem countDispatches_cons_marker (evs : List Event) :
    countDispatches (Event.markerUpdate :: evs) = countDispatches evs := by
  simp [countDispatches, List.filter]

theorem countDispatches_cons_dispatch (evs : List Event) :
    countDispatches (Event.dispatch :: evs) = countDispatches evs + 1 := by
  simp [countDispatches, List.filter]

theorem countDispatches_cons_sleep (s : Nat) (evs : List Event) :
    countDispatches (Event.sleep s :: evs) = countDispatches evs := by
  simp [countDispatches, List.filter]

/-- The loop of `_make_request` never writes `last_request_time`: the one
write happens in `_wait_for_rate_limit`, before the loop. -/
theorem countMarkerUpdates_requestLoop (maxRetries timeoutS attempt : Nat)
    (oracle : List Attempt) :
    countMarkerUpdates (requestLoop maxRetries timeoutS attempt oracle).1
      = 0 := by
  induction oracle generalizing attempt with
  | nil => rfl
  | cons a rest ih =>
    rw [requestLoop.eq_def]
    by_cases hle : maxRetries ≤ attempt
    · simp [hle, countMarkerUpdates_nil]
    · have hle2 : ¬maxRetries ≤ maxRetries - 1 := by omega
      cases a with
      | response r =>
        by_cases h429 : r.status_code = 429
        · by_cases hfin : attempt = maxRetries - 1 <;>
            simp [hle, hle2, h429, hfin, countMarkerUpdates_cons,
              countMarkerUpdates_nil, ih]
        · by_cases hok : responseOk r <;>
            simp [hle, h429, hok, countMarkerUpdates_cons,
              countMarkerUpdates_nil, ih]
      | timeout =>
        by_cases hfin : attempt = maxRetries - 1 <;>
          simp [hle, hle2, hfin, countMarkerUpdates_cons,
            countMarkerUpdates_nil, ih]
      | reqExc m =>
        by_cases hfin : attempt = maxRetries - 1 <;>
          simp [hle, hle2, hfin, countMarkerUpdates_cons,
            countMarkerUpdates_nil, ih]

theorem requestLoop_response_429_final (maxRetries timeoutS attempt : Nat)
    (r : HttpResponse) (rest : List Attempt) (hle : ¬maxRetries ≤ attempt)
    (h429 : r.status_code = 429) (hfin : attempt = maxRetries - 1) :
    requestLoop maxRetries timeoutS attempt (Attempt.response r :: rest)
      = ([Event.dispatch],
         Except.error (mkRateLimitError
           ("Rate limit exceeded. Retry after "
             ++ toString (r.retry_after.getD 60) ++ " seconds.") none)) := by
  rw [requestLoop.eq_def]
  simp [hle, h429, hfin]
  omega

theorem requestLoop_response_429_retry (maxRetries timeoutS attempt : Nat)
    (r : HttpResponse) (rest : List Attempt) (hle : ¬maxRetries ≤ attempt)
    (h429 : r.status_code = 429) (hfin : ¬attempt = maxRetries - 1) :
    requestLoop maxRetries timeoutS attempt (Attempt.response r :: rest)
      = (Event.dispatch :: Event.sleep (r.retry_after.getD 60)
           :: (requestLoop maxRetries timeoutS (attempt + 1) rest).1,
         (requestLoop maxRetries timeoutS (attempt + 1) rest).2) := by
  rw [requestLoop.eq_def]
  simp [hle, h429, hfin]

theorem requestLoop_timeout_final (maxRetries timeoutS attempt : Nat)
    (rest : List Attempt) (hle : ¬maxRetries ≤ attempt)
    (hfin : attempt = maxRetries - 1) :
    requestLoop maxRetries timeoutS attempt (Attempt.timeout :: rest)
      = ([Event.dispatch],
         Except.error (mkFurSightError
           ("Request timeout after " ++ toString timeoutS ++ " seconds"))) := by
  rw [requestLoop.eq_def]
  simp [hle, hfin]
  omega

theorem requestLoop_timeout_retry (maxRetries timeoutS attempt : Nat)
    (rest : List Attempt) (hle : ¬maxRetries ≤ attempt)
    (hfin : ¬attempt = maxRetries - 1) :
    requestLoop maxRetries timeoutS attempt (Attempt.timeout :: rest)
      = (Event.dispatch :: Event.sleep (2 ^ attempt)
           :: (requestLoop maxRetries timeoutS (attempt + 1) rest).1,
         (requestLoop maxRetries timeoutS (attempt + 1) rest).2) := by
  rw [requestLoop.eq_def]
  simp [hle, hfin]

theorem requestLoop_reqExc_final (maxRetries timeoutS attempt : Nat)
    (m : String) (rest : List Attempt) (hle : ¬maxRetries ≤ attempt)
    (hfin : attempt = maxRetries - 1) :
    requestLoop maxRetries timeoutS attempt (Attempt.reqExc m :: rest)
      = ([Event.dispatch],
         Except.error (mkFurSightError ("Request failed: " ++ m))) := by
  rw [requestLoop.eq_def]
  simp [hle, hfin]
  omega

theorem requestLoop_reqExc_retry (maxRetries timeoutS attempt : Nat)
    (m : String) (rest : List Attempt) (hle : ¬maxRetries ≤ attempt)
    (hfin : ¬attempt = maxRetries - 1) :
    requestLoop maxRetries timeoutS attempt (Attempt.reqExc m :: rest)
      = (Event.dispatch :: Event.sleep (2 ^ attempt)
           :: (requestLoop maxRetries timeoutS (attempt + 1) rest).1,
         (requestLoop maxRetries timeoutS (attempt + 1) rest).2) := by
  rw [requestLoop.eq_def]
  simp [hle, hfin]

/-- A run of the loop from index `attempt` in which every dispatched attempt
returns 429: each non-final attempt sleeps its `Retry-After` (default 60)
then retries, and the final attempt raises `RateLimitError` whose message
carries its own retry-after value (attribute `retry_after` left `None`, as
the call site passes only the message). -/
theorem requestLoop_429 (maxRetries timeoutS : Nat) (rs : List HttpResponse)
    (rlast : HttpResponse) (attempt : Nat)
    (hmr : maxRetries = attempt + rs.length + 1)
    (hall : ∀ r ∈ rs, r.status_code = 429)
    (hlast : rlast.status_code = 429) :
    sleepsOf (requestLoop maxRetries timeoutS attempt
        ((rs ++ [rlast]).map Attempt.response)).1
      = rs.map (fun r => r.retry_after.getD 60)
    ∧ countDispatches (requestLoop maxRetries timeoutS attempt
        ((rs ++ [rlast]).map Attempt.response)).1 = rs.length + 1
    ∧ (requestLoop maxRetries timeoutS attempt
        ((rs ++ [rlast]).map Attempt.response)).2
      = Except.error (mkRateLimitError
          ("Rate limit exceeded. Retry after "
            ++ toString (rlast.retry_after.getD 60) ++ " seconds.") none) := by
  induction rs generalizing attempt with
  | nil =>
    simp only [List.length_nil] at hmr
    have hle : ¬maxRetries ≤ attempt := by omega
    have hfin : attempt = maxRetries - 1 := by omega
    rw [List.nil_append, List.map_cons, List.map_nil,
      requestLoop_response_429_final maxRetries timeoutS attempt rlast []
        hle hlast hfin]
    simp [sleepsOf, countDispatches]
  | cons r rs ih =>
    simp only [List.length_cons] at hmr
    have hle : ¬maxRetries ≤ attempt := by omega
    have hfin : ¬attempt = maxRetries - 1 := by omega
    have h429 : r.status_code = 429 := hall r (List.mem_cons_self r rs)
    have hmr2 : maxRetries = (attempt + 1) + rs.length + 1 := by omega
    have ih2 := ih (attempt + 1) hmr2
      (fun x hx => hall x (List.mem_cons_of_mem r hx))
    rw [List.cons_append, List.map_cons,
      requestLoop_response_429_retry maxRetries timeoutS attempt r _
        hle h429 hfin]
    refine ⟨?_, ?_, ?_⟩
    · rw [sleepsOf_cons, sleepsOf_cons]
      simp only [List.nil_append, List.cons_append, ih2.1, List.map_cons]
    · rw [countDispatches_cons, countDispatches_cons]
      simp only [ih2.2.1, List.length_cons]
      omega
    · exact ih2.2.2

/- ------------------------------------------------------------------ -/
/- C4.                                                                 -/
/- ------------------------------------------------------------------ -/

/-- C4: when every attempt of a logical call returns 429, each non-final
attempt reads `Retry-After` (defaulting to 60 seconds when the header is
absent) and sleeps exactly that long before retrying, and after
`max_retries` attempts the call raises `RateLimitError` whose message
carries the retry-after hint of the final attempt. -/
theorem claim4_429_retries_then_ratelimit (maxRetries timeoutS : Nat)
    (rs : List HttpResponse) (rlast : HttpResponse)
    (hmr : maxRetries = rs.length + 1)
    (hall : ∀ r ∈ rs, r.status_code = 429)
    (hlast : rlast.status_code = 429) :
    sleepsOf (makeRequest maxRetries timeoutS
        ((rs ++ [rlast]).map Attempt.response)).1
      = rs.map (fun r => r.retry_after.getD 60)
    ∧ countDispatches (makeRequest maxRetries timeoutS
        ((rs ++ [rlast]).map Attempt.response)).1 = maxRetries
    ∧ (makeRequest maxRetries timeoutS
        ((rs ++ [rlast]).map Attempt.response)).2
      = Except.error (mkRateLimitError
          ("Rate limit exceeded. Retry after "
            ++ toString (rlast.retry_after.getD 60) ++ " seconds.") none) := by
  have h := requestLoop_429 maxRetries timeoutS rs rlast 0
    (by omega) hall hlast
  have hmk : makeRequest maxRetries timeoutS
      ((rs ++ [rlast]).map Attempt.response)
      = (Event.markerUpdate :: (requestLoop maxRetries timeoutS 0
          ((rs ++ [rlast]).map Attempt.response)).1,
         (requestLoop maxRetries timeoutS 0
          ((rs ++ [rlast]).map Attempt.response)).2) := rfl
  rw [hmk]
  refine ⟨?_, ?_, h.2.2⟩
  · rw [sleepsOf_cons_marker, h.1]
  · rw [countDispatches_cons_marker, h.2.1]
    omega

/-- C4 witness: `max_retries = 2`, first attempt 429 with `Retry-After: 5`,
second attempt 429 with `Retry-After: 9`: one sleep of 5 seconds, two
dispatches, and `RateLimitError` carrying the hint 9. -/
theorem claim4_witness :
    sleepsOf (makeRequest 2 30
      [Attempt.response (HttpResponse.mk 429 (some 5) (some none) ""),
       Attempt.response (HttpResponse.mk 429 (some 9) (some none) "")]).1
      = [5]
    ∧ (makeRequest 2 30
      [Attempt.response (HttpResponse.mk 429 (some 5) (some none) ""),
       Attempt.response (HttpResponse.mk 429 (some 9) (some none) "")]).2
      = Except.error (mkRateLimitError
          "Rate limit exceeded. Retry after 9 seconds." none) := by
  have h := claim4_429_retries_then_ratelimit 2 30
    [HttpResponse.mk 429 (some 5) (some none) ""]
    (HttpResponse.mk 429 (some 9) (some none) "")
    (by decide)
    (by intro r hr; simp at hr; rw [hr])
    rfl
  simp only [List.cons_append, List.nil_append, List.map_cons,
    List.map_nil] at h
  exact ⟨h.1, h.2.2⟩

/- ------------------------------------------------------------------ -/
/- C5.                                                                 -/
/- ------------------------------------------------------------------ -/

/-- A run of the loop from index `attempt` in which every dispatched attempt
ends in a timeout or transport-level `RequestException`: each non-final
attempt sleeps `2 ^ attempt` seconds before retrying, and the final attempt
raises the base `FurSightError` with an exhaustion message. -/
theorem requestLoop_transient (maxRetries timeoutS : Nat)
    (fails : List Attempt) (last : Attempt) (attempt : Nat)
    (hmr : maxRetries = attempt + fails.length + 1)
    (hfails : ∀ a ∈ fails, isTransient a = true)
    (hlast : isTransient last = true) :
    sleepsOf (requestLoop maxRetries timeoutS attempt (fails ++ [last])).1
      = (List.range fails.length).map (fun i => 2 ^ (attempt + i))
    ∧ countDispatches (requestLoop maxRetries timeoutS attempt
        (fails ++ [last])).1 = fails.length + 1
    ∧ (last = Attempt.timeout →
        (requestLoop maxRetries timeoutS attempt (fails ++ [last])).2
          = Except.error (mkFurSightError
              ("Request timeout after " ++ toString timeoutS ++ " seconds")))
    ∧ (∀ m, last = Attempt.reqExc m →
        (requestLoop maxRetries timeoutS attempt (fails ++ [last])).2
          = Except.error (mkFurSightError ("Request failed: " ++ m))) := by
  induction fails generalizing attempt with
  | nil =>
    simp only [List.length_nil] at hmr
    have hle : ¬maxRetries ≤ attempt := by omega
    have hfin : attempt = maxRetries - 1 := by omega
    rw [List.nil_append]
    cases last with
    | response r => simp [isTransient] at hlast
    | timeout =>
      rw [requestLoop_timeout_final maxRetries timeoutS attempt [] hle hfin]
      refine ⟨by simp [sleepsOf], by simp [countDispatches], fun _ => rfl,
        fun m hm => by simp at hm⟩
    | reqExc msg =>
      rw [requestLoop_reqExc_final maxRetries timeoutS attempt msg [] hle hfin]
      refine ⟨by simp [sleepsOf], by simp [countDispatches],
        fun hm => by simp at hm, fun m hm => ?_⟩
      injection hm with hmm
      rw [hmm]
  | cons a fails ih =>
    simp only [List.length_cons] at hmr
    have hle : ¬maxRetries ≤ attempt := by omega
    have hfin : ¬attempt = maxRetries - 1 := by omega
    have hmr2 : maxRetries = (attempt + 1) + fails.length + 1 := by omega
    have ih2 := ih (attempt + 1) hmr2
      (fun x hx => hfails x (List.mem_cons_of_mem a hx))
    have hrange : (List.range (fails.length + 1)).map
          (fun i => 2 ^ (attempt + i))
        = 2 ^ attempt :: (List.range fails.length).map
            (fun i => 2 ^ (attempt + 1 + i)) := by
      rw [List.range_succ_eq_map]
      simp [List.map_map]
      intro i _
      omega
    have hstep : requestLoop maxRetries timeoutS attempt
          ((a :: fails) ++ [last])
        = (Event.dispatch :: Event.sleep (2 ^ attempt)
             :: (requestLoop maxRetries timeoutS (attempt + 1)
                  (fails ++ [last])).1,
           (requestLoop maxRetries timeoutS (attempt + 1)
                  (fails ++ [last])).2) := by
      cases a with
      | response r => simp [isTransient] at hfails
      | timeout =>
        rw [List.cons_append]
        exact requestLoop_timeout_retry maxRetries timeoutS attempt _ hle hfin
      | reqExc msg =>
        rw [List.cons_append]
        exact requestLoop_reqExc_retry maxRetries timeoutS attempt msg _
          hle hfin
    rw [hstep]
    refine ⟨?_, ?_, fun hm => ih2.2.2.1 hm, fun m hm => ih2.2.2.2 m hm⟩
    · rw [sleepsOf_cons_dispatch, sleepsOf_cons_sleep]
      simp only [List.length_cons, hrange, ih2.1]
    · rw [countDispatches_cons_dispatch, countDispatches_cons_sleep]
      simp only [ih2.2.1, List.length_cons]

/-- C5 counterexample: when three attempts all time out (defaults
`max_retries=3`, `timeout=30`), the terminal exception's concrete class is
the base `FurSightError` — and within the SDK hierarchy the only handler
class that catches it is `FurSightError` itself, which also catches
`ValidationError` (and every other SDK failure), so the exhaustion failure
is not a distinct catchable kind. -/
theorem claim5_counterexample :
    (makeRequest 3 30 [Attempt.timeout, Attempt.timeout, Attempt.timeout]).2
      = Except.error (mkFurSightError "Request timeout after 30 seconds")
    ∧ (mkFurSightError "Request timeout after 30 seconds").cls
      = ExcClass.furSightError
    ∧ allExcClasses.filter
        (fun c => isSubclassB ExcClass.furSightError c)
      = [ExcClass.furSightError]
    ∧ isSubclassB ExcClass.validationError ExcClass.furSightError = true := by
  exact ⟨rfl, rfl, by decide, by decide⟩

/-- C5 amended: when every attempt of a logical call ends in a timeout or a
transport-level error, the executor sleeps `2 ^ attempt` seconds
(zero-indexed) before each retry, dispatches exactly `max_retries`
attempts, and on exhaustion raises the base `FurSightError` summarizing the
exhaustion ("Request timeout after N seconds" / "Request failed: ...") —
catchable, but not a failure kind distinct from the other SDK errors,
since `FurSightError` is the root of the hierarchy. -/
theorem claim5_amended (maxRetries timeoutS : Nat) (fails : List Attempt)
    (last : Attempt) (hmr : maxRetries = fails.length + 1)
    (hfails : ∀ a ∈ fails, isTransient a = true)
    (hlast : isTransient last = true) :
    sleepsOf (makeRequest maxRetries timeoutS (fails ++ [last])).1
      = (List.range fails.length).map (fun i => 2 ^ i)
    ∧ countDispatches (makeRequest maxRetries timeoutS
        (fails ++ [last])).1 = maxRetries
    ∧ (last = Attempt.timeout →
        (makeRequest maxRetries timeoutS (fails ++ [last])).2
          = Except.error (mkFurSightError
              ("Request timeout after " ++ toString timeoutS ++ " seconds")))
    ∧ (∀ m, last = Attempt.reqExc m →
        (makeRequest maxRetries timeoutS (fails ++ [last])).2
          = Except.error (mkFurSightError ("Request failed: " ++ m)))
    ∧ (∀ c, isSubclassB ExcClass.furSightError c = true →
        isSubclassB ExcClass.validationError c = true) := by
  have h := requestLoop_transient maxRetries timeoutS fails last 0
    (by omega) hfails hlast
  have hmk : makeRequest maxRetries timeoutS (fails ++ [last])
      = (Event.markerUpdate
           :: (requestLoop maxRetries timeoutS 0 (fails ++ [last])).1,
         (requestLoop maxRetries timeoutS 0 (fails ++ [last])).2) := rfl
  rw [hmk]
  refine ⟨?_, ?_, h.2.2.1, h.2.2.2, ?_⟩
  · rw [sleepsOf_cons_marker, h.1]
    apply List.map_congr_left
    intro i _
    rw [Nat.zero_add]
  · rw [countDispatches_cons_marker, h.2.1]
    omega
  · intro c hc
    cases c <;> simp_all [isSubclassB, ancestors]

/-- C5 witness: two transport failures then a final timeout under
`max_retries = 3`: sleeps 1 = 2^0 and 2 = 2^1 seconds, three dispatches,
terminal base `FurSightError`. -/
theorem claim5_witness :
    sleepsOf (makeRequest 3 30
      [Attempt.reqExc "conn reset", Attempt.timeout, Attempt.timeout]).1
      = [1, 2]
    ∧ countDispatches (makeRequest 3 30
      [Attempt.reqExc "conn reset", Attempt.timeout, Attempt.timeout]).1 = 3
    ∧ (makeRequest 3 30
      [Attempt.reqExc "conn reset", Attempt.timeout, Attempt.timeout]).2
      = Except.error (mkFurSightError "Request timeout after 30 seconds") := by
  have h := claim5_amended 3 30 [Attempt.reqExc "conn reset", Attempt.timeout]
    Attempt.timeout (by decide) (by decide) (by decide)
  simp only [List.cons_append, List.nil_append] at h
  exact ⟨h.1, h.2.1, h.2.2.1 (by trivial)⟩

/- ------------------------------------------------------------------ -/
/- C3.                                                                 -/
/- ------------------------------------------------------------------ -/

/-- C3 counterexample: a logical call that dispatches two attempts (a 429
then a 200) writes the `last_request_time` marker once, not twice: the
write sits in `_wait_for_rate_limit`, which `_make_request` calls once,
before its retry loop. -/
theorem claim3_counterexample :
    countDispatches (makeRequest 3 30
      [Attempt.response (HttpResponse.mk 429 (some 5) (some none) ""),
       Attempt.response (HttpResponse.mk 200 none (some none) "ok")]).1 = 2
    ∧ countMarkerUpdates (makeRequest 3 30
      [Attempt.response (HttpResponse.mk 429 (some 5) (some none) ""),
       Attempt.response (HttpResponse.mk 200 none (some none) "ok")]).1 = 1
    ∧ (1 : Nat) ≠ 2 := by
  refine ⟨?_, ?_, by decide⟩ <;> rfl

/-- C3 amended: every call of `_make_request` writes the per-instance
`last_request_time` marker exactly once — before the first attempt — no
matter how many attempts the retry loop dispatches or how they end. -/
theorem claim3_amended (maxRetries timeoutS : Nat) (oracle : List Attempt) :
    countMarkerUpdates (makeRequest maxRetries timeoutS oracle).1 = 1 := by
  rw [show (makeRequest maxRetries timeoutS oracle).1
      = Event.markerUpdate :: (requestLoop maxRetries timeoutS 0 oracle).1
      from rfl,
    countMarkerUpdates_cons,
    countMarkerUpdates_requestLoop]

/- ------------------------------------------------------------------ -/
/- Helper lemmas: forms.                                               -/
/- ------------------------------------------------------------------ -/

theorem get_dropdown_values_ok (f : Form) (t : DropTable) (f1 : Form)
    (h : f.get_dropdown_values = Except.ok (t, f1)) :
    f1 = f ∧ f.dropdownValues = some t := by
  unfold Form.get_dropdown_values at h
  cases hdv : f.dropdownValues with
  | some t0 =>
    rw [hdv] at h
    dsimp only at h
    injection h with h
    injection h with h1 h2
    exact ⟨h2.symm, by rw [h1]⟩
  | none =>
    rw [hdv] at h
    simp [clientGetDropdownValues] at h

theorem validate_field_ok (f : Form) (fieldName : String) (v : Val)
    (b : Bool) (f1 : Form)
    (h : f.validate_field fieldName v = Except.ok (b, f1)) : f1 = f := by
  unfold Form.validate_field at h
  cases hg : f.get_dropdown_values with
  | error e => rw [hg] at h; cases h
  | ok p =>
    obtain ⟨t, f2⟩ := p
    have hf2 : f2 = f := (get_dropdown_values_ok f t f2 hg).1
    rw [hg] at h
    dsimp only at h
    cases hl : lookupTable t fieldName with
    | none =>
      rw [hl] at h
      dsimp only at h
      injection h with h
      injection h with h1 h2
      rw [← h2, hf2]
    | some allowed =>
      rw [hl] at h
      dsimp only at h
      split at h
      · cases h
      · injection h with h
        injection h with h1 h2
        rw [← h2, hf2]

theorem validateEntries_form_invariant (f : Form)
    (entries : List (String × Val)) (f1 : Form)
    (h : validateEntries f entries = Except.ok f1) : f1 = f := by
  induction entries generalizing f with
  | nil =>
    unfold validateEntries at h
    injection h with h
    exact h.symm
  | cons e rest ih =>
    obtain ⟨n, v⟩ := e
    unfold validateEntries at h
    by_cases hv : v = Val.vNone
    · rw [if_pos hv] at h
      exact ih f h
    · rw [if_neg hv] at h
      cases hvf : f.validate_field n v with
      | error e0 => rw [hvf] at h; cases h
      | ok p =>
        obtain ⟨b, f2⟩ := p
        rw [hvf] at h
        have hf2 : f2 = f := validate_field_ok f n v b f2 hvf
        rw [← hf2]
        exact ih f2 h

theorem validate_field_ok_of_passes (f : Form) (dv : DropTable)
    (entry : String × Val) (hdv : f.dropdownValues = some dv)
    (hp : entryPasses dv entry) (hv : entry.2 ≠ Val.vNone) :
    f.validate_field entry.1 entry.2 = Except.ok (true, f) := by
  obtain ⟨n, v⟩ := entry
  unfold Form.validate_field Form.get_dropdown_values
  rw [hdv]
  dsimp only
  rcases hp with hp | hp
  · exact absurd hp hv
  · cases hl : lookupTable dv n with
    | none => rfl
    | some allowed =>
      rw [hl] at hp
      dsimp only at hp
      rcases hp with hp | hp
      · simp [hp]
      · have hmem : pyStr v ∈ allowed := by simpa using hp
        simp [hmem]

theorem validateEntries_ok_of_passes (f : Form) (dv : DropTable)
    (entries : List (String × Val)) (hdv : f.dropdownValues = some dv)
    (hp : ∀ e ∈ entries, entryPasses dv e) :
    validateEntries f entries = Except.ok f := by
  induction entries with
  | nil => rfl
  | cons e rest ih =>
    obtain ⟨n, v⟩ := e
    unfold validateEntries
    by_cases hv : v = Val.vNone
    · rw [if_pos hv]
      exact ih (fun x hx => hp x (List.mem_cons_of_mem _ hx))
    · rw [if_neg hv,
        validate_field_ok_of_passes f dv (n, v) hdv
          (hp (n, v) (List.mem_cons_self _ _)) hv]
      exact ih (fun x hx => hp x (List.mem_cons_of_mem _ hx))

theorem validateEntries_ok_of_allNone (f : Form)
    (entries : List (String × Val))
    (hp : ∀ e ∈ entries, e.2 = Val.vNone) :
    validateEntries f entries = Except.ok f := by
  induction entries with
  | nil => rfl
  | cons e rest ih =>
    obtain ⟨n, v⟩ := e
    unfold validateEntries
    rw [if_pos (hp (n, v) (List.mem_cons_self _ _))]
    exact ih (fun x hx => hp x (List.mem_cons_of_mem _ hx))

theorem validateEntries_cons (f : Form) (n : String) (v : Val)
    (rest : List (String × Val)) :
    validateEntries f ((n, v) :: rest)
      = if v = Val.vNone then validateEntries f rest
        else match f.validate_field n v with
             | Except.error e => Except.error e
             | Except.ok (_, f1) => validateEntries f1 rest := rfl

theorem validateEntries_append (f : Form) (es1 es2 : List (String × Val))
    (hok : validateEntries f es1 = Except.ok f) :
    validateEntries f (es1 ++ es2) = validateEntries f es2 := by
  induction es1 generalizing f with
  | nil => rfl
  | cons e rest ih =>
    obtain ⟨n, v⟩ := e
    rw [List.cons_append, validateEntries_cons]
    unfold validateEntries at hok
    by_cases hv : v = Val.vNone
    · rw [if_pos hv] at hok ⊢
      exact ih f hok
    · rw [if_neg hv] at hok ⊢
      cases hvf : f.validate_field n v with
      | error e0 => rw [hvf] at hok; cases hok
      | ok p =>
        obtain ⟨b, f2⟩ := p
        rw [hvf] at hok
        have hf2 : f2 = f := validate_field_ok f n v b f2 hvf
        rw [hf2] at hok
        dsimp only
        rw [hf2]
        exact ih f hok

theorem validate_field_violation (f : Form) (dv : DropTable)
    (fieldName : String) (v : Val) (allowed : List String)
    (hdv : f.dropdownValues = some dv)
    (hl : lookupTable dv fieldName = some allowed) (hne : allowed ≠ [])
    (hc : allowed.contains (pyStr v) = false) :
    f.validate_field fieldName v
      = Except.error (mkValidationError
          (fieldErrorMessage fieldName allowed v)) := by
  unfold Form.validate_field Form.get_dropdown_values
  rw [hdv]
  dsimp only
  rw [hl]
  dsimp only
  have hmem : pyStr v ∉ allowed := by simpa using hc
  rw [if_pos]
  simp [hne, hmem]

/- ------------------------------------------------------------------ -/
/- C7.                                                                 -/
/- ------------------------------------------------------------------ -/

/-- C7: `validate()` on a form with both partitions empty raises the
distinct "no data" `ValidationError`; on a form with at least one non-empty
partition whose field checks all pass, it returns `True` (and in particular
does not raise the "no data" error). -/
theorem claim7_validate_no_data (f : Form) :
    (f.adopter = [] → f.dog = [] →
      (f.validate).2 = Except.error (mkValidationError
        "Form must contain at least some adopter and dog data"))
    ∧ (¬(f.adopter = [] ∧ f.dog = []) → fieldChecksPass f →
      (f.validate).2 = Except.ok true) := by
  constructor
  · intro ha hd
    simp [Form.validate, ha, hd, validateEntries, noDataMessage]
  · intro hne hchecks
    have hb : (f.adopter.isEmpty && f.dog.isEmpty) = false := by
      rcases Decidable.not_and_iff_or_not.mp hne with h | h
      · have he : f.adopter.isEmpty = false := by
          cases hx : f.adopter with
          | nil => exact absurd hx h
          | cons x xs => rfl
        simp [he]
      · have he : f.dog.isEmpty = false := by
          cases hx : f.dog with
          | nil => exact absurd hx h
          | cons x xs => rfl
        simp [he]
    unfold fieldChecksPass at hchecks
    cases hdv : f.dropdownValues with
    | some dv =>
      rw [hdv] at hchecks
      have hA : validateEntries f f.adopter = Except.ok f :=
        validateEntries_ok_of_passes f dv f.adopter hdv
          (fun e he => hchecks e (List.mem_append_left _ he))
      have hD : validateEntries f f.dog = Except.ok f :=
        validateEntries_ok_of_passes f dv f.dog hdv
          (fun e he => hchecks e (List.mem_append_right _ he))
      simp [Form.validate, hA, hD, hb]
    | none =>
      rw [hdv] at hchecks
      have hA : validateEntries f f.adopter = Except.ok f :=
        validateEntries_ok_of_allNone f f.adopter
          (fun e he => hchecks e (List.mem_append_left _ he))
      have hD : validateEntries f f.dog = Except.ok f :=
        validateEntries_ok_of_allNone f f.dog
          (fun e he => hchecks e (List.mem_append_right _ he))
      simp [Form.validate, hA, hD, hb]

/-- C7 witness: the empty form raises the "no data" error; a one-field form
whose value is allowed validates to `True`. -/
theorem claim7_witness :
    ((Form.mk [] [] none none).validate).2
      = Except.error (mkValidationError
          "Form must contain at least some adopter and dog data")
    ∧ ((Form.mk [("adopter_has_kids", Val.vStr "No")] []
        (some [("adopter_has_kids", ["Yes", "No"])]) none).validate).2
      = Except.ok true := by
  constructor
  · exact (claim7_validate_no_data (Form.mk [] [] none none)).1 rfl rfl
  · refine (claim7_validate_no_data _).2 (by simp) ?_
    intro e he
    simp only [List.append_nil, List.mem_singleton] at he
    rw [he]
    right
    simp [lookupTable, pyStr]

/- ------------------------------------------------------------------ -/
/- C8.                                                                 -/
/- ------------------------------------------------------------------ -/

/-- C8 counterexample: with allowed-values table `{"f": []}` the value
`"x"` is not among the (zero) permitted values, yet `validate_field`
passes: `if allowed_values and str(value) not in allowed_values` treats an
empty list as falsy, so an empty permitted list imposes no constraint. -/
theorem claim8_counterexample :
    (Form.mk [] [] (some [("f", [])]) none).validate_field "f" (Val.vStr "x")
      = Except.ok (true, Form.mk [] [] (some [("f", [])]) none)
    ∧ (([] : List String).contains "x") = false := by
  exact ⟨rfl, rfl⟩

/-- C8 amended: for a non-null field listed in the table with a non-empty
permitted list not containing `str(value)`, validation fails immediately on
that first violation with an error naming the field, the received value,
and the first five permitted values followed by `...` exactly when more
than five exist; a field absent from the table passes; an empty permitted
list also passes (imposes no constraint).  The first violating entry
determines the raised error regardless of the entries after it. -/
theorem claim8_amended (f : Form) (dv : DropTable) (fieldName : String)
    (v : Val) (hdv : f.dropdownValues = some dv) :
    (∀ allowed, lookupTable dv fieldName = some allowed → allowed ≠ [] →
      allowed.contains (pyStr v) = false →
      f.validate_field fieldName v = Except.error (mkValidationError
        ("Field '" ++ fieldName ++ "' must be one of: "
          ++ pyListRepr (allowed.take 5)
          ++ (if 5 < allowed.length then "..." else "")
          ++ ". Received: '" ++ pyStr v ++ "'")))
    ∧ (lookupTable dv fieldName = none →
      f.validate_field fieldName v = Except.ok (true, f))
    ∧ (∀ good bad rest, f.adopter = good ++ bad :: rest →
      (∀ e ∈ good, entryPasses dv e) → bad.2 ≠ Val.vNone →
      ∀ allowed, lookupTable dv bad.1 = some allowed → allowed ≠ [] →
      allowed.contains (pyStr bad.2) = false →
      (f.validate).2 = Except.error (mkValidationError
        (fieldErrorMessage bad.1 allowed bad.2)))
    ∧ (∀ good bad rest, f.dog = good ++ bad :: rest →
      (∀ e ∈ f.adopter, entryPasses dv e) →
      (∀ e ∈ good, entryPasses dv e) → bad.2 ≠ Val.vNone →
      ∀ allowed, lookupTable dv bad.1 = some allowed → allowed ≠ [] →
      allowed.contains (pyStr bad.2) = false →
      (f.validate).2 = Except.error (mkValidationError
        (fieldErrorMessage bad.1 allowed bad.2))) := by
  refine ⟨fun allowed hl hne hc => ?_, fun hl => ?_, ?_, ?_⟩
  · exact validate_field_violation f dv fieldName v allowed hdv hl hne hc
  · unfold Form.validate_field Form.get_dropdown_values
    rw [hdv]
    dsimp only
    rw [hl]
  · intro good bad rest hsplit hgood hbadv allowed hl hne hc
    have hGood : validateEntries f good = Except.ok f :=
      validateEntries_ok_of_passes f dv good hdv hgood
    have hBad : f.validate_field bad.1 bad.2
        = Except.error (mkValidationError
            (fieldErrorMessage bad.1 allowed bad.2)) :=
      validate_field_violation f dv bad.1 bad.2 allowed hdv hl hne hc
    have hA : validateEntries f f.adopter
        = Except.error (mkValidationError
            (fieldErrorMessage bad.1 allowed bad.2)) := by
      rw [hsplit, validateEntries_append f good (bad :: rest) hGood]
      obtain ⟨bn, bv⟩ := bad
      rw [validateEntries_cons, if_neg hbadv, hBad]
    simp [Form.validate, hA]
  · intro good bad rest hsplit hadopter hgood hbadv allowed hl hne hc
    have hAok : validateEntries f f.adopter = Except.ok f :=
      validateEntries_ok_of_passes f dv f.adopter hdv hadopter
    have hGood : validateEntries f good = Except.ok f :=
      validateEntries_ok_of_passes f dv good hdv hgood
    have hBad : f.validate_field bad.1 bad.2
        = Except.error (mkValidationError
            (fieldErrorMessage bad.1 allowed bad.2)) :=
      validate_field_violation f dv bad.1 bad.2 allowed hdv hl hne hc
    have hD : validateEntries f f.dog
        = Except.error (mkValidationError
            (fieldErrorMessage bad.1 allowed bad.2)) := by
      rw [hsplit, validateEntries_append f good (bad :: rest) hGood]
      obtain ⟨bn, bv⟩ := bad
      rw [validateEntries_cons, if_neg hbadv, hBad]
    simp [Form.validate, hAok, hD]

/-- C8 witness: the spec's example — allowed values
`{"dog_size": ["Small","Medium","Large"]}` and dog field
`dog_size="Huge"` — fails naming the field, the received value and the
three allowed values, both at `validate_field` and through `validate()`. -/
theorem claim8_witness :
    (Form.mk [] [("dog_size", Val.vStr "Huge")]
        (some [("dog_size", ["Small", "Medium", "Large"])]) none).validate_field
        "dog_size" (Val.vStr "Huge")
      = Except.error (mkValidationError
          ("Field '" ++ "dog_size" ++ "' must be one of: "
            ++ pyListRepr (["Small", "Medium", "Large"].take 5)
            ++ (if 5 < (["Small", "Medium", "Large"] : List String).length
                then "..." else "")
            ++ ". Received: '" ++ pyStr (Val.vStr "Huge") ++ "'"))
    ∧ ((Form.mk [] [("dog_size", Val.vStr "Huge")]
        (some [("dog_size", ["Small", "Medium", "Large"])]) none).validate).2
      = Except.error (mkValidationError
          "Field 'dog_size' must be one of: ['Small', 'Medium', 'Large']. Received: 'Huge'") := by
  constructor
  · exact (claim8_amended
      (Form.mk [] [("dog_size", Val.vStr "Huge")]
        (some [("dog_size", ["Small", "Medium", "Large"])]) none)
      [("dog_size", ["Small", "Medium", "Large"])] "dog_size"
      (Val.vStr "Huge") rfl).1 ["Small", "Medium", "Large"] rfl
      (by decide) (by decide)
  · have h := (claim8_amended
      (Form.mk [] [("dog_size", Val.vStr "Huge")]
        (some [("dog_size", ["Small", "Medium", "Large"])]) none)
      [("dog_size", ["Small", "Medium", "Large"])] "dog_size"
      (Val.vStr "Huge") rfl).2.2.2 [] ("dog_size", Val.vStr "Huge") [] rfl
      (by intro e he; cases he) (by intro e he; cases he) (by decide)
      ["Small", "Medium", "Large"] rfl (by decide) (by decide)
    rw [h]
    rfl

/- ------------------------------------------------------------------ -/
/- C9.                                                                 -/
/- ------------------------------------------------------------------ -/

/-- C9: calls to the disabled-endpoint operations — batch prediction,
dropdown values, adopter-letter generation, dog-profile generation — are
rejected locally by an `AttributeError` naming the missing client method,
with an empty event trace: no network dispatch is ever attempted. -/
theorem claim9_disabled_endpoints_local (f : Form)
    (hcache : f.dropdownValues = none) :
    clientPredictBatch
      = ([], Except.error (mkAttributeError "predict_batch"))
    ∧ f.generate_adopter_letter
      = ([], Except.error (mkAttributeError "generate_adopter_letter"))
    ∧ f.generate_dog_profile
      = ([], Except.error (mkAttributeError "generate_dog_profile"))
    ∧ f.get_dropdown_values_traced
      = ([], Except.error (mkAttributeError "get_dropdown_values")) := by
  refine ⟨rfl, rfl, rfl, ?_⟩
  simp [Form.get_dropdown_values_traced, Form.get_dropdown_values, hcache,
    clientGetDropdownValues]

/-- C9 witness: the four disabled operations on a fresh form all yield a
local `AttributeError` with no events. -/
theorem claim9_witness :
    clientPredictBatch
      = ([], Except.error (mkAttributeError "predict_batch"))
    ∧ (Form.mk [] [] none none).generate_adopter_letter
      = ([], Except.error (mkAttributeError "generate_adopter_letter"))
    ∧ (Form.mk [] [] none none).generate_dog_profile
      = ([], Except.error (mkAttributeError "generate_dog_profile"))
    ∧ (Form.mk [] [] none none).get_dropdown_values_traced
      = ([], Except.error (mkAttributeError "get_dropdown_values")) :=
  claim9_disabled_endpoints_local (Form.mk [] [] none none) rfl

/- ------------------------------------------------------------------ -/
/- C10.                                                                -/
/- ------------------------------------------------------------------ -/

/-- C10: `validate()` never changes the form: the adopter partition, the
dog partition and both caches are the same after the call as before,
whether it returns `True`, raises a `ValidationError`, or raises the
`AttributeError` of the removed dropdown fetch.  (The one write the source
could make — caching a fetched dropdown table — sits after the removed
client call, so it is unreachable.) -/
theorem claim10_validate_leaves_form_unchanged (f : Form) :
    (f.validate).1 = f := by
  unfold Form.validate
  cases h1 : validateEntries f f.adopter with
  | error e => rfl
  | ok f1 =>
    have hf1 : f1 = f := validateEntries_form_invariant f _ f1 h1
    dsimp only
    cases h2 : validateEntries f1 f.dog with
    | error e => exact hf1
    | ok f2 =>
      have hf2 : f2 = f1 := validateEntries_form_invariant f1 _ f2 h2
      dsimp only
      by_cases he : (f.adopter.isEmpty && f.dog.isEmpty) = true
      · rw [if_pos he]
        exact hf2.trans hf1
      · rw [if_neg he]
        exact hf2.trans hf1
